import Mathlib

/-!
# Verification of the SimpleMicroservices schema layer

Shallow embedding of the pydantic models in
`src/SimpleMicroservices/models/owner.py` and
`src/SimpleMicroservices/models/pet.py`, together with the pieces of the
system the spec describes but that are not under `src/` (the Address model,
and the create / partial-update operations of the external collaborator).

Payloads are modelled as JSON values; each pydantic model becomes a Lean
structure plus a validator `Json → Option <model>` that follows the field
declarations of the source (`none` plays the role of pydantic's
`ValidationError`).  Identifier, timestamp, date and email values are kept
as strings with format predicates, since their concrete validation lives in
external libraries (pydantic core, email-validator), not in this repository.
-/

/-- A JSON value, the wire form a pydantic payload is validated from. -/
inductive Json where
  | null : Json
  | bool (b : Bool) : Json
  | num (n : Int) : Json
  | str (s : String) : Json
  | arr (xs : List Json) : Json
  | obj (fields : List (String × Json)) : Json

/-- Field lookup in a JSON object (first occurrence of the key). -/
def lookupJ : List (String × Json) → String → Option Json
  | [], _ => none
  | (k, v) :: rest, key => if k = key then some v else lookupJ rest key

/-- Hexadecimal digit test, for UUID textual format. -/
def isHexDigit (c : Char) : Bool :=
  c.isDigit || ('a' ≤ c && c ≤ 'f') || ('A' ≤ c && c ≤ 'F')

/-- Modelled from the spec: identifiers are 128-bit values in standard UUID
textual formatting (8-4-4-4-12 hexadecimal groups separated by hyphens);
the concrete parser lives in Python's `uuid` library, not under `src/`. -/
def isUuid (s : String) : Bool :=
  let cs := s.toList
  cs.length = 36 &&
  (List.range 36).all (fun i =>
    if i = 8 || i = 13 || i = 18 || i = 23 then
      cs.getD i ' ' = '-'
    else
      isHexDigit (cs.getD i ' '))

/-- Modelled from the spec: calendar dates are `YYYY-MM-DD` text; the
concrete parser is Python's `datetime.date` via pydantic, not under `src/`. -/
def isDate (s : String) : Bool :=
  let cs := s.toList
  cs.length = 10 &&
  (List.range 10).all (fun i =>
    if i = 4 || i = 7 then cs.getD i ' ' = '-' else (cs.getD i ' ').isDigit)

/-- Modelled from the spec: timestamps are UTC, ISO-8601 formatted on the
wire (`YYYY-MM-DDTHH:MM:SSZ`); the concrete parser is Python's
`datetime.datetime` via pydantic, not under `src/`. -/
def isDatetime (s : String) : Bool :=
  let cs := s.toList
  cs.length = 20 &&
  (List.range 20).all (fun i =>
    if i = 4 || i = 7 then cs.getD i ' ' = '-'
    else if i = 10 then cs.getD i ' ' = 'T'
    else if i = 13 || i = 16 then cs.getD i ' ' = ':'
    else if i = 19 then cs.getD i ' ' = 'Z'
    else (cs.getD i ' ').isDigit)

/-- Modelled from the spec: `EmailStr` requires standard email syntax
(checked by the external email-validator dependency, not under `src/`):
a non-empty local part, one `@`, a non-empty domain containing a dot and
not starting or ending with one, and no spaces. -/
def isValidEmail (s : String) : Bool :=
  let cs := s.toList
  let lp := cs.takeWhile (fun c => c ≠ '@')
  let dom := (cs.dropWhile (fun c => c ≠ '@')).drop 1
  cs.count '@' = 1 && !lp.isEmpty && !dom.isEmpty && dom.contains '.' &&
  dom.headD '.' ≠ '.' && dom.getLastD '.' ≠ '.' && !cs.contains ' '

/-- Modelled from the spec: `AddressBase`
(`src/SimpleMicroservices/models/address.py` is imported by `owner.py` but is
not under `src/`).  Per spec section 4.1: street, city, postal_code and
country are required text; state is optional; id is a server-assigned UUID
that a client may echo but need not supply. -/
structure AddressBase where
  id : Option String
  street : String
  city : String
  state : Option String
  postal_code : String
  country : String
deriving Repr, DecidableEq

/-- Validator for a required text field: present string accepted, anything
else (absent, null, wrong type) a validation error. -/
def vReqStr (fs : List (String × Json)) (k : String) : Option String :=
  match lookupJ fs k with
  | some (Json.str s) => some s
  | _ => none

/-- Validator for an `Optional[str]` field with default `None`: absent or
null becomes `none`, a string is accepted, any other type is an error. -/
def vOptStr (fs : List (String × Json)) (k : String) : Option (Option String) :=
  match lookupJ fs k with
  | none => some none
  | some Json.null => some none
  | some (Json.str s) => some (some s)
  | some _ => none

/-- Validator for a required `EmailStr` field: a present string passing
`isValidEmail`; anything else is an error. -/
def vReqEmail (fs : List (String × Json)) (k : String) : Option String :=
  match lookupJ fs k with
  | some (Json.str s) => if isValidEmail s then some s else none
  | _ => none

/-- Validator for an `Optional[date]` field with default `None`. -/
def vOptDate (fs : List (String × Json)) (k : String) : Option (Option String) :=
  match lookupJ fs k with
  | none => some none
  | some Json.null => some none
  | some (Json.str s) => if isDate s then some (some s) else none
  | some _ => none

/-- Validator for a required `UUID` field: a present string in UUID textual
format; anything else is an error. -/
def vReqUuid (fs : List (String × Json)) (k : String) : Option String :=
  match lookupJ fs k with
  | some (Json.str s) => if isUuid s then some s else none
  | _ => none

/-- Validator for an optional (server-assignable) `UUID` field: absent or
null becomes `none`. -/
def vOptUuid (fs : List (String × Json)) (k : String) : Option (Option String) :=
  match lookupJ fs k with
  | none => some none
  | some Json.null => some none
  | some (Json.str s) => if isUuid s then some (some s) else none
  | some _ => none

/-- Element-wise validation of a JSON array: any failing element rejects the
whole list (pydantic `List[...]` semantics). -/
def validateList (f : Json → Option α) : List Json → Option (List α)
  | [] => some []
  | x :: rest =>
    match f x, validateList f rest with
    | some a, some tail => some (a :: tail)
    | _, _ => none

/-- `AddressBase` validation, following spec section 4.1's field contract. -/
def AddressBase.validate : Json → Option AddressBase
  | Json.obj fs =>
    match vOptUuid fs "id", vReqStr fs "street", vReqStr fs "city",
          vOptStr fs "state", vReqStr fs "postal_code", vReqStr fs "country" with
    | some i, some st, some ci, some sta, some pc, some co =>
      some ⟨i, st, ci, sta, pc, co⟩
    | _, _, _, _, _, _ => none
  | _ => none

/-- Validator for the `addresses: List[AddressBase]` field with
`default_factory=list`: absent means the empty list, a present value must be
an array of valid addresses (`owner.py` lines 40-55). -/
def vAddrList (fs : List (String × Json)) (k : String) :
    Option (List AddressBase) :=
  match lookupJ fs k with
  | none => some []
  | some (Json.arr xs) => validateList AddressBase.validate xs
  | some _ => none

/-- The shared base shape of `OwnerBase` (`owner.py` lines 12-55). -/
structure OwnerBase where
  first_name : String
  last_name : String
  email : String
  phone : Option String
  government_id : Option String
  addresses : List AddressBase
deriving Repr, DecidableEq

/-- `OwnerBase` validation: `first_name`, `last_name` required strings,
`email` a required `EmailStr`, `phone` and `government_id` optional strings,
`addresses` a list with empty default (`owner.py` lines 12-55). -/
def OwnerBase.validate : Json → Option OwnerBase
  | Json.obj fs =>
    match vReqStr fs "first_name", vReqStr fs "last_name",
          vReqEmail fs "email", vOptStr fs "phone",
          vOptStr fs "government_id", vAddrList fs "addresses" with
    | some fn, some ln, some em, some ph, some gi, some ad =>
      some ⟨fn, ln, em, ph, gi, ad⟩
    | _, _, _, _, _, _ => none
  | _ => none

/-- `OwnerCreate` has exactly the `OwnerBase` field set
(`owner.py` lines 82-97). -/
abbrev OwnerCreate := OwnerBase

/-- `OwnerCreate` validation coincides with `OwnerBase` validation, since the
subclass adds no field (`owner.py` lines 82-97). -/
def OwnerCreate.validate : Json → Option OwnerCreate := OwnerBase.validate

/-- Validator for an update field of type `Optional[str] = None`.  The outer
`Option` records structural presence (pydantic's `model_fields_set`, needed
for `exclude_unset` merge semantics), the inner one the value: absent key ↦
unset, explicit null ↦ set to `none`, string ↦ set to that string. -/
def vUpdStr (fs : List (String × Json)) (k : String) :
    Option (Option (Option String)) :=
  match lookupJ fs k with
  | none => some none
  | some Json.null => some (some none)
  | some (Json.str s) => some (some (some s))
  | some _ => none

/-- Validator for an update field of type `Optional[EmailStr] = None`: a
present string must additionally pass `isValidEmail`. -/
def vUpdEmail (fs : List (String × Json)) (k : String) :
    Option (Option (Option String)) :=
  match lookupJ fs k with
  | none => some none
  | some Json.null => some (some none)
  | some (Json.str s) => if isValidEmail s then some (some (some s)) else none
  | some _ => none

/-- Validator for an update field of type `Optional[date] = None`. -/
def vUpdDate (fs : List (String × Json)) (k : String) :
    Option (Option (Option String)) :=
  match lookupJ fs k with
  | none => some none
  | some Json.null => some (some none)
  | some (Json.str s) => if isDate s then some (some (some s)) else none
  | some _ => none

/-- Validator for the update field `addresses: Optional[List[AddressBase]]`
(`owner.py` lines 107-122). -/
def vUpdAddrList (fs : List (String × Json)) (k : String) :
    Option (Option (Option (List AddressBase))) :=
  match lookupJ fs k with
  | none => some none
  | some Json.null => some (some none)
  | some (Json.arr xs) =>
    match validateList AddressBase.validate xs with
    | some ad => some (some (some ad))
    | none => none
  | some _ => none

/-- `OwnerUpdate` (`owner.py` lines 100-122): every field optional with
default `None`.  Each Lean field pairs pydantic's value with its
membership in `model_fields_set`: `none` = structurally omitted,
`some none` = present as null, `some (some v)` = present with value `v`. -/
structure OwnerUpdate where
  first_name : Option (Option String)
  last_name : Option (Option String)
  email : Option (Option String)
  phone : Option (Option String)
  government_id : Option (Option String)
  addresses : Option (Option (List AddressBase))
deriving Repr, DecidableEq

/-- `OwnerUpdate` validation (`owner.py` lines 100-122). -/
def OwnerUpdate.validate : Json → Option OwnerUpdate
  | Json.obj fs =>
    match vUpdStr fs "first_name", vUpdStr fs "last_name",
          vUpdEmail fs "email", vUpdStr fs "phone",
          vUpdStr fs "government_id", vUpdAddrList fs "addresses" with
    | some fn, some ln, some em, some ph, some gi, some ad =>
      some ⟨fn, ln, em, ph, gi, ad⟩
    | _, _, _, _, _, _ => none
  | _ => none

/-- `OwnerRead` (`owner.py` lines 146-162): the base shape plus
server-generated `id` (UUID) and `created_at` / `updated_at` timestamps. -/
structure OwnerRead where
  first_name : String
  last_name : String
  email : String
  phone : Option String
  government_id : Option String
  addresses : List AddressBase
  id : String
  created_at : String
  updated_at : String
deriving Repr, DecidableEq

/-- The base-shape part of an `OwnerRead`. -/
def OwnerRead.base (r : OwnerRead) : OwnerBase :=
  ⟨r.first_name, r.last_name, r.email, r.phone, r.government_id, r.addresses⟩

/-- The per-instantiation environment consumed by pydantic
`default_factory` callables: a fresh UUID from `uuid4` and the current time
from `datetime.utcnow`.  `owner.py` lines 148-162 and `pet.py` lines 98-116
declare the generated fields with `default_factory=uuid4` and
`default_factory=datetime.utcnow`, so the factories run once per model
instantiation, against the state at that instant. -/
structure Gen where
  freshUuid : String
  now : String
deriving Repr, DecidableEq

/-- Constructing an `OwnerRead` from validated base fields without supplying
`id`, `created_at` or `updated_at`: each `default_factory` fires against the
instantiation-time environment (`owner.py` lines 148-162). -/
def OwnerRead.ofBase (g : Gen) (b : OwnerBase) : OwnerRead :=
  { first_name := b.first_name, last_name := b.last_name, email := b.email
  , phone := b.phone, government_id := b.government_id
  , addresses := b.addresses
  , id := g.freshUuid, created_at := g.now, updated_at := g.now }

/-- Modelled from the spec: the create operation of the external repository
collaborator (spec section 6, not under `src/`): a validated Create payload
is turned into a Read record with a server-generated id and
`created_at = updated_at = now`. -/
def createOwner (g : Gen) (p : OwnerCreate) : OwnerRead :=
  OwnerRead.ofBase g p

/-- Modelled from the spec: the partial-update operation of the external
collaborator (spec sections 4.2 and 6, not under `src/`): every field
present in the validated update payload overwrites the stored field, every
structurally omitted field is kept, `addresses` when present replaces the
whole list, and `updated_at` is refreshed.  A field of required type whose
set value is null has no well-typed overwrite on the Read record and is
kept. -/
def applyOwnerUpdate (r : OwnerRead) (u : OwnerUpdate) (now : String) :
    OwnerRead :=
  { first_name := match u.first_name with
      | some (some v) => v
      | _ => r.first_name
  , last_name := match u.last_name with
      | some (some v) => v
      | _ => r.last_name
  , email := match u.email with
      | some (some v) => v
      | _ => r.email
  , phone := match u.phone with
      | some v => v
      | none => r.phone
  , government_id := match u.government_id with
      | some v => v
      | none => r.government_id
  , addresses := match u.addresses with
      | some (some xs) => xs
      | _ => r.addresses
  , id := r.id, created_at := r.created_at, updated_at := now }

/-- The shared base shape of `PetBase` (`pet.py` lines 12-37). -/
structure PetBase where
  name : String
  species : String
  breed : Option String
  birth_date : Option String
  color : Option String
deriving Repr, DecidableEq

/-- `PetBase` validation: `name`, `species` required strings; `breed`,
`color` optional strings; `birth_date` an optional calendar date
(`pet.py` lines 12-37). -/
def PetBase.validate : Json → Option PetBase
  | Json.obj fs =>
    match vReqStr fs "name", vReqStr fs "species", vOptStr fs "breed",
          vOptDate fs "birth_date", vOptStr fs "color" with
    | some na, some sp, some br, some bd, some co =>
      some ⟨na, sp, br, bd, co⟩
    | _, _, _, _, _ => none
  | _ => none

/-- `PetCreate` (`pet.py` lines 54-60): the base shape plus a mandatory
`owner_id` UUID. -/
structure PetCreate where
  name : String
  species : String
  breed : Option String
  birth_date : Option String
  color : Option String
  owner_id : String
deriving Repr, DecidableEq

/-- `PetCreate` validation: the `PetBase` fields plus required `owner_id`
(`pet.py` lines 54-60). -/
def PetCreate.validate : Json → Option PetCreate
  | Json.obj fs =>
    match vReqStr fs "name", vReqStr fs "species", vOptStr fs "breed",
          vOptDate fs "birth_date", vOptStr fs "color",
          vReqUuid fs "owner_id" with
    | some na, some sp, some br, some bd, some co, some oid =>
      some ⟨na, sp, br, bd, co, oid⟩
    | _, _, _, _, _, _ => none
  | _ => none

/-- `PetUpdate` (`pet.py` lines 78-93): all base fields optional, no
`owner_id` field.  Presence encoding as in `OwnerUpdate`. -/
structure PetUpdate where
  name : Option (Option String)
  species : Option (Option String)
  breed : Option (Option String)
  birth_date : Option (Option String)
  color : Option (Option String)
deriving Repr, DecidableEq

/-- `PetUpdate` validation (`pet.py` lines 78-93). -/
def PetUpdate.validate : Json → Option PetUpdate
  | Json.obj fs =>
    match vUpdStr fs "name", vUpdStr fs "species", vUpdStr fs "breed",
          vUpdDate fs "birth_date", vUpdStr fs "color" with
    | some na, some sp, some br, some bd, some co =>
      some ⟨na, sp, br, bd, co⟩
    | _, _, _, _, _ => none
  | _ => none

/-- `PetRead` (`pet.py` lines 96-116): the base shape plus server-generated
`id`, timestamps, and an optional fully-embedded `OwnerRead` record. -/
structure PetRead where
  name : String
  species : String
  breed : Option String
  birth_date : Option String
  color : Option String
  id : String
  owner : Option OwnerRead
  created_at : String
  updated_at : String
deriving Repr, DecidableEq

/-- Constructing a `PetRead` from validated base fields without supplying
`id`, `created_at` or `updated_at`: each `default_factory` fires against the
instantiation-time environment; `owner` defaults to null
(`pet.py` lines 96-116). -/
def PetRead.ofBase (g : Gen) (b : PetBase) : PetRead :=
  { name := b.name, species := b.species, breed := b.breed
  , birth_date := b.birth_date, color := b.color
  , id := g.freshUuid, owner := none
  , created_at := g.now, updated_at := g.now }

/-- Modelled from the spec: the Pet create operation of the external
collaborator (spec section 6, not under `src/`): the validated payload's
base fields are kept, the server assigns id and `created_at = updated_at =
now`, and owner resolution is left to a later join (owner starts null). -/
def createPet (g : Gen) (p : PetCreate) : PetRead :=
  PetRead.ofBase g ⟨p.name, p.species, p.breed, p.birth_date, p.color⟩

/-- Modelled from the spec: the Pet partial-update operation of the external
collaborator (spec sections 4.3 and 6, not under `src/`): same
omission-vs-overwrite merge semantics as `applyOwnerUpdate`. -/
def applyPetUpdate (r : PetRead) (u : PetUpdate) (now : String) : PetRead :=
  { name := match u.name with
      | some (some v) => v
      | _ => r.name
  , species := match u.species with
      | some (some v) => v
      | _ => r.species
  , breed := match u.breed with
      | some v => v
      | none => r.breed
  , birth_date := match u.birth_date with
      | some v => v
      | none => r.birth_date
  , color := match u.color with
      | some v => v
      | none => r.color
  , id := r.id, owner := r.owner
  , created_at := r.created_at, updated_at := now }

/-- JSON form of an optional string (pydantic serializes `None` as null). -/
def jOptStr : Option String → Json
  | none => Json.null
  | some s => Json.str s

/-- Serialization of an `AddressBase` (pydantic `model_dump` in JSON mode). -/
def AddressBase.serialize (a : AddressBase) : Json :=
  Json.obj
    [ ("id", jOptStr a.id), ("street", Json.str a.street)
    , ("city", Json.str a.city), ("state", jOptStr a.state)
    , ("postal_code", Json.str a.postal_code)
    , ("country", Json.str a.country) ]

/-- Serialization of an `OwnerRead` (pydantic `model_dump` in JSON mode:
UUIDs and timestamps as their textual forms). -/
def OwnerRead.serialize (r : OwnerRead) : Json :=
  Json.obj
    [ ("first_name", Json.str r.first_name)
    , ("last_name", Json.str r.last_name)
    , ("email", Json.str r.email)
    , ("phone", jOptStr r.phone)
    , ("government_id", jOptStr r.government_id)
    , ("addresses", Json.arr (r.addresses.map AddressBase.serialize))
    , ("id", Json.str r.id)
    , ("created_at", Json.str r.created_at)
    , ("updated_at", Json.str r.updated_at) ]

/-- Serialization of a `PetRead`, embedding the serialized owner record. -/
def PetRead.serialize (r : PetRead) : Json :=
  Json.obj
    [ ("name", Json.str r.name)
    , ("species", Json.str r.species)
    , ("breed", jOptStr r.breed)
    , ("birth_date", jOptStr r.birth_date)
    , ("color", jOptStr r.color)
    , ("id", Json.str r.id)
    , ("owner", match r.owner with
        | none => Json.null
        | some o => o.serialize)
    , ("created_at", Json.str r.created_at)
    , ("updated_at", Json.str r.updated_at) ]

/-- Validator for a UUID field with `default_factory=uuid4`: an absent key
makes the factory fire against the instantiation environment; null is not
accepted (the field is not `Optional`). -/
def vGenUuid (g : Gen) (fs : List (String × Json)) (k : String) :
    Option String :=
  match lookupJ fs k with
  | none => some g.freshUuid
  | some (Json.str s) => if isUuid s then some s else none
  | some _ => none

/-- Validator for a datetime field with `default_factory=datetime.utcnow`. -/
def vGenDatetime (g : Gen) (fs : List (String × Json)) (k : String) :
    Option String :=
  match lookupJ fs k with
  | none => some g.now
  | some (Json.str s) => if isDatetime s then some s else none
  | some _ => none

/-- `OwnerRead` validation (`owner.py` lines 146-162): the base fields plus
`id`, `created_at`, `updated_at`, whose `default_factory` defaults consume
the instantiation environment `g` when the key is absent. -/
def OwnerRead.validate (g : Gen) : Json → Option OwnerRead
  | Json.obj fs =>
    match vReqStr fs "first_name", vReqStr fs "last_name",
          vReqEmail fs "email", vOptStr fs "phone",
          vOptStr fs "government_id", vAddrList fs "addresses",
          vGenUuid g fs "id", vGenDatetime g fs "created_at",
          vGenDatetime g fs "updated_at" with
    | some fn, some ln, some em, some ph, some gi, some ad, some i,
      some ca, some ua =>
      some ⟨fn, ln, em, ph, gi, ad, i, ca, ua⟩
    | _, _, _, _, _, _, _, _, _ => none
  | _ => none

/-- Validator for the `owner: Optional[OwnerRead]` field of `PetRead`
(`pet.py` lines 103-106). -/
def vOptOwner (g : Gen) (fs : List (String × Json)) (k : String) :
    Option (Option OwnerRead) :=
  match lookupJ fs k with
  | none => some none
  | some Json.null => some none
  | some j =>
    match OwnerRead.validate g j with
    | some o => some (some o)
    | none => none

/-- `PetRead` validation (`pet.py` lines 96-116). -/
def PetRead.validate (g : Gen) : Json → Option PetRead
  | Json.obj fs =>
    match vReqStr fs "name", vReqStr fs "species", vOptStr fs "breed",
          vOptDate fs "birth_date", vOptStr fs "color",
          vGenUuid g fs "id", vOptOwner g fs "owner",
          vGenDatetime g fs "created_at", vGenDatetime g fs "updated_at" with
    | some na, some sp, some br, some bd, some co, some i, some ow,
      some ca, some ua =>
      some ⟨na, sp, br, bd, co, i, ow, ca, ua⟩
    | _, _, _, _, _, _, _, _, _ => none
  | _ => none

/-- Field access on a serialized record (object lookup). -/
def jGet : Json → String → Option Json
  | Json.obj fs, k => lookupJ fs k
  | _, _ => none

/-- Lift a well-formedness check over an optional value. -/
def optWf (f : α → Bool) : Option α → Bool
  | none => true
  | some x => f x

/-- Well-formed stored address: an echoed id, when present, is in UUID
textual format. -/
def AddressBase.wf (a : AddressBase) : Bool :=
  optWf isUuid a.id

/-- Well-formed stored `OwnerRead`: the constrained fields hold values their
schema types admit (validated email, UUID id, ISO-8601 timestamps,
well-formed embedded addresses). -/
def OwnerRead.wf (r : OwnerRead) : Bool :=
  isValidEmail r.email && isUuid r.id && isDatetime r.created_at &&
  isDatetime r.updated_at && r.addresses.all AddressBase.wf

/-- Well-formed stored `PetRead`: UUID id, ISO-8601 timestamps, a
well-formed birth date and embedded owner when present. -/
def PetRead.wf (p : PetRead) : Bool :=
  isUuid p.id && isDatetime p.created_at && isDatetime p.updated_at &&
  optWf isDate p.birth_date && optWf OwnerRead.wf p.owner

/-- The JSON types a required `str` field accepts. -/
def strOk : Json → Bool
  | Json.str _ => true
  | _ => false

/-- The JSON types an `Optional[str]` field accepts. -/
def optStrOk : Json → Bool
  | Json.null => true
  | Json.str _ => true
  | _ => false

/-- The JSON types an `Optional[date]` field accepts (content checked
separately by `badDateAt`). -/
def optDateOk : Json → Bool
  | Json.null => true
  | Json.str _ => true
  | _ => false

/-- A well-typed value for the `addresses: List[AddressBase]` field: an
array whose every element validates. -/
def addrListOk : Json → Bool
  | Json.arr xs => xs.all (fun j => (AddressBase.validate j).isSome)
  | _ => false

/-- The payload has field `k` present with a value outside the types `ok`
accepts ("a present field has the wrong type"). -/
def presentWrongType (fs : List (String × Json)) (k : String)
    (ok : Json → Bool) : Bool :=
  match lookupJ fs k with
  | some j => !ok j
  | none => false

/-- The payload has field `k` present as a string that is not a
syntactically valid email. -/
def badEmailAt (fs : List (String × Json)) (k : String) : Bool :=
  match lookupJ fs k with
  | some (Json.str s) => !isValidEmail s
  | _ => false

/-- The payload has field `k` present as a string that is not a
`YYYY-MM-DD` date. -/
def badDateAt (fs : List (String × Json)) (k : String) : Bool :=
  match lookupJ fs k with
  | some (Json.str s) => !isDate s
  | _ => false

/-- The payload has field `k` present as a string that is not in UUID
textual format. -/
def badUuidAt (fs : List (String × Json)) (k : String) : Bool :=
  match lookupJ fs k with
  | some (Json.str s) => !isUuid s
  | _ => false

/-- An Owner Create payload is missing one of its required fields
`first_name`, `last_name`, `email`. -/
def ownerMissingRequired (fs : List (String × Json)) : Bool :=
  (lookupJ fs "first_name").isNone || (lookupJ fs "last_name").isNone ||
  (lookupJ fs "email").isNone

/-- Some present field of an Owner Create payload has the wrong type. -/
def ownerWrongType (fs : List (String × Json)) : Bool :=
  presentWrongType fs "first_name" strOk ||
  presentWrongType fs "last_name" strOk ||
  presentWrongType fs "email" strOk ||
  presentWrongType fs "phone" optStrOk ||
  presentWrongType fs "government_id" optStrOk ||
  presentWrongType fs "addresses" addrListOk

/-- The error conditions the spec lists for Owner Create validation:
a missing required field, a present field of the wrong type, or a
malformed email. -/
def ownerValidationFails (fs : List (String × Json)) : Bool :=
  ownerMissingRequired fs || ownerWrongType fs || badEmailAt fs "email"

/-- A Pet Create payload is missing one of its required fields `name`,
`species`, `owner_id`. -/
def petMissingRequired (fs : List (String × Json)) : Bool :=
  (lookupJ fs "name").isNone || (lookupJ fs "species").isNone ||
  (lookupJ fs "owner_id").isNone

/-- Some present field of a Pet Create payload has the wrong type. -/
def petWrongType (fs : List (String × Json)) : Bool :=
  presentWrongType fs "name" strOk ||
  presentWrongType fs "species" strOk ||
  presentWrongType fs "breed" optStrOk ||
  presentWrongType fs "birth_date" optDateOk ||
  presentWrongType fs "color" optStrOk ||
  presentWrongType fs "owner_id" strOk

/-- The error conditions for Pet Create validation: a missing required
field, a present field of the wrong type, a malformed date, or a malformed
owner id. -/
def petValidationFails (fs : List (String × Json)) : Bool :=
  petMissingRequired fs || petWrongType fs || badDateAt fs "birth_date" ||
  badUuidAt fs "owner_id"

/-- A concrete validated Owner base record, for instantiating theorems. -/
def ownerBaseExample : OwnerBase :=
  ⟨"Ada", "Lovelace", "ada@example.com", none, none, []⟩

/-- A concrete well-formed `OwnerRead` record. -/
def ownerReadExample : OwnerRead :=
  ⟨"Ada", "Lovelace", "ada@example.com", some "+1-317-555-0123", none,
   [⟨some "550e8400-e29b-41d4-a716-446655440000", "123 Main St", "London",
     none, "SW1A 1AA", "UK"⟩],
   "99999999-9999-4999-8999-999999999999",
   "2025-01-15T10:20:30Z", "2025-01-15T10:20:30Z"⟩

/-- A concrete well-formed `PetRead` record embedding `ownerReadExample`. -/
def petReadExample : PetRead :=
  ⟨"Buddy", "Dog", some "Golden Retriever", some "2020-05-10", none,
   "aaaaaaaa-aaaa-4aaa-8aaa-aaaaaaaaaaaa", some ownerReadExample,
   "2025-01-15T10:20:30Z", "2025-01-16T12:00:00Z"⟩

/-- A concrete `OwnerUpdate` payload: `first_name` set, `phone` set to
null, `addresses` set to the empty list, the rest omitted. -/
def ownerUpdateExample : OwnerUpdate :=
  ⟨some (some "Ann"), none, none, some none, none, some (some [])⟩

/-- A concrete `PetUpdate` payload: `name` set, `birth_date` set to null,
`color` set, the rest omitted. -/
def petUpdateExample : PetUpdate :=
  ⟨some (some "Max"), none, none, some none, some (some "Black")⟩

/-- A concrete instantiation environment. -/
def genExample : Gen :=
  ⟨"33333333-3333-4333-8333-333333333333", "2025-02-01T00:00:00Z"⟩

/-! ## Helper lemmas -/

/-- An `Option` is `none` exactly when `isSome` is false. -/
lemma option_none_iff_isSome_false (o : Option α) : o = none ↔ o.isSome = false := by
  cases o <;> simp

/-- `validateList` succeeds exactly when every element validates. -/
lemma validateList_isSome (f : Json → Option α) (xs : List Json) :
    (validateList f xs).isSome = xs.all (fun j => (f j).isSome) := by
  induction xs with
  | nil => rfl
  | cons x rest ih =>
    unfold validateList
    cases hx : f x <;> cases hr : validateList f rest <;> simp_all

/-- A required string field fails exactly on a missing key or a present
non-string value. -/
lemma vReqStr_none_iff (fs : List (String × Json)) (k : String) :
    vReqStr fs k = none ↔
      ((lookupJ fs k).isNone = true ∨ presentWrongType fs k strOk = true) := by
  unfold vReqStr presentWrongType
  cases h : lookupJ fs k with
  | none => simp
  | some j => cases j <;> simp [strOk]

/-- A required email field fails exactly on a missing key, a present
non-string value, or a string that is not a valid email. -/
lemma vReqEmail_none_iff (fs : List (String × Json)) (k : String) :
    vReqEmail fs k = none ↔
      ((lookupJ fs k).isNone = true ∨ presentWrongType fs k strOk = true ∨
        badEmailAt fs k = true) := by
  unfold vReqEmail presentWrongType badEmailAt
  cases h : lookupJ fs k with
  | none => simp
  | some j =>
    cases j with
    | str s => cases hv : isValidEmail s <;> simp [strOk, hv]
    | null => simp [strOk]
    | bool b => simp [strOk]
    | num n => simp [strOk]
    | arr xs => simp [strOk]
    | obj ms => simp [strOk]

/-- A required UUID field fails exactly on a missing key, a present
non-string value, or a string not in UUID format. -/
lemma vReqUuid_none_iff (fs : List (String × Json)) (k : String) :
    vReqUuid fs k = none ↔
      ((lookupJ fs k).isNone = true ∨ presentWrongType fs k strOk = true ∨
        badUuidAt fs k = true) := by
  unfold vReqUuid presentWrongType badUuidAt
  cases h : lookupJ fs k with
  | none => simp
  | some j =>
    cases j with
    | str s => cases hv : isUuid s <;> simp [strOk, hv]
    | null => simp [strOk]
    | bool b => simp [strOk]
    | num n => simp [strOk]
    | arr xs => simp [strOk]
    | obj ms => simp [strOk]

/-- An optional string field fails exactly on a present value that is
neither null nor a string. -/
lemma vOptStr_none_iff (fs : List (String × Json)) (k : String) :
    vOptStr fs k = none ↔ presentWrongType fs k optStrOk = true := by
  unfold vOptStr presentWrongType
  cases h : lookupJ fs k with
  | none => simp
  | some j => cases j <;> simp [optStrOk]

/-- An optional date field fails exactly on a present value of the wrong
type or a present string that is not a date. -/
lemma vOptDate_none_iff (fs : List (String × Json)) (k : String) :
    vOptDate fs k = none ↔
      (presentWrongType fs k optDateOk = true ∨ badDateAt fs k = true) := by
  unfold vOptDate presentWrongType badDateAt
  cases h : lookupJ fs k with
  | none => simp
  | some j =>
    cases j with
    | str s => cases hv : isDate s <;> simp [optDateOk, hv]
    | null => simp [optDateOk]
    | bool b => simp [optDateOk]
    | num n => simp [optDateOk]
    | arr xs => simp [optDateOk]
    | obj ms => simp [optDateOk]

/-- The addresses field fails exactly on a present value that is not an
array of valid addresses. -/
lemma vAddrList_none_iff (fs : List (String × Json)) (k : String) :
    vAddrList fs k = none ↔ presentWrongType fs k addrListOk = true := by
  unfold vAddrList presentWrongType
  cases h : lookupJ fs k with
  | none => simp
  | some j =>
    cases j with
    | arr xs =>
      rw [option_none_iff_isSome_false, validateList_isSome]
      simp [addrListOk]
    | null => simp [addrListOk]
    | bool b => simp [addrListOk]
    | num n => simp [addrListOk]
    | str s => simp [addrListOk]
    | obj ms => simp [addrListOk]

set_option maxHeartbeats 1600000 in
/-- Characterization of Owner validation failure: `OwnerBase.validate`
rejects an object exactly under the spec's error conditions. -/
lemma ownerValidate_none_iff (fs : List (String × Json)) :
    OwnerBase.validate (Json.obj fs) = none ↔ ownerValidationFails fs = true := by
  have hm : OwnerBase.validate (Json.obj fs) = none ↔
      (vReqStr fs "first_name" = none ∨ vReqStr fs "last_name" = none ∨
       vReqEmail fs "email" = none ∨ vOptStr fs "phone" = none ∨
       vOptStr fs "government_id" = none ∨ vAddrList fs "addresses" = none) := by
    unfold OwnerBase.validate
    cases h1 : vReqStr fs "first_name" <;>
    cases h2 : vReqStr fs "last_name" <;>
    cases h3 : vReqEmail fs "email" <;>
    cases h4 : vOptStr fs "phone" <;>
    cases h5 : vOptStr fs "government_id" <;>
    cases h6 : vAddrList fs "addresses" <;>
    simp only [h1, h2, h3, h4, h5, h6] <;> simp
  rw [hm, vReqStr_none_iff, vReqStr_none_iff, vReqEmail_none_iff,
    vOptStr_none_iff, vOptStr_none_iff, vAddrList_none_iff]
  unfold ownerValidationFails ownerMissingRequired ownerWrongType
  simp only [Bool.or_eq_true]
  tauto

set_option maxHeartbeats 1600000 in
/-- Characterization of Pet Create validation failure. -/
lemma petValidate_none_iff (fs : List (String × Json)) :
    PetCreate.validate (Json.obj fs) = none ↔ petValidationFails fs = true := by
  have hm : PetCreate.validate (Json.obj fs) = none ↔
      (vReqStr fs "name" = none ∨ vReqStr fs "species" = none ∨
       vOptStr fs "breed" = none ∨ vOptDate fs "birth_date" = none ∨
       vOptStr fs "color" = none ∨ vReqUuid fs "owner_id" = none) := by
    unfold PetCreate.validate
    cases h1 : vReqStr fs "name" <;>
    cases h2 : vReqStr fs "species" <;>
    cases h3 : vOptStr fs "breed" <;>
    cases h4 : vOptDate fs "birth_date" <;>
    cases h5 : vOptStr fs "color" <;>
    cases h6 : vReqUuid fs "owner_id" <;>
    simp only [h1, h2, h3, h4, h5, h6] <;> simp
  rw [hm, vReqStr_none_iff, vReqStr_none_iff, vOptStr_none_iff,
    vOptDate_none_iff, vOptStr_none_iff, vReqUuid_none_iff]
  unfold petValidationFails petMissingRequired petWrongType
  simp only [Bool.or_eq_true]
  tauto

/-- A well-formed address survives a serialize / validate round trip. -/
lemma addressBase_roundtrip (a : AddressBase) (h : a.wf = true) :
    AddressBase.validate a.serialize = some a := by
  obtain ⟨i, st, ci, sta, pc, co⟩ := a
  cases i with
  | none =>
    cases sta <;>
      simp [AddressBase.validate, AddressBase.serialize, vOptUuid, vReqStr,
        vOptStr, lookupJ, jOptStr]
  | some u =>
    simp only [AddressBase.wf, optWf] at h
    cases sta <;>
      simp [AddressBase.validate, AddressBase.serialize, vOptUuid, vReqStr,
        vOptStr, lookupJ, jOptStr, h]

/-- A list of well-formed addresses survives the element-wise round trip. -/
lemma validateList_serialize (xs : List AddressBase)
    (h : xs.all AddressBase.wf = true) :
    validateList AddressBase.validate (xs.map AddressBase.serialize) =
      some xs := by
  induction xs with
  | nil => rfl
  | cons a rest ih =>
    simp only [List.all_cons, Bool.and_eq_true] at h
    simp [validateList, addressBase_roundtrip a h.1, ih h.2]

/-- A well-formed `OwnerRead` record survives a serialize / validate round
trip, for any instantiation environment (all generated fields are present in
the serialization, so no default fires). -/
lemma ownerRead_roundtrip (g : Gen) (r : OwnerRead) (h : r.wf = true) :
    OwnerRead.validate g r.serialize = some r := by
  obtain ⟨fn, ln, em, ph, gi, ad, i, ca, ua⟩ := r
  simp only [OwnerRead.wf, Bool.and_eq_true] at h
  obtain ⟨⟨⟨⟨hem, hid⟩, hca⟩, hua⟩, had⟩ := h
  cases ph <;> cases gi <;>
    simp [OwnerRead.validate, OwnerRead.serialize, vReqStr, vReqEmail,
      vOptStr, vAddrList, vGenUuid, vGenDatetime, lookupJ, jOptStr,
      hem, hid, hca, hua, validateList_serialize ad had]

set_option maxHeartbeats 3200000 in
/-- A well-formed `PetRead` record survives a serialize / validate round
trip, embedded owner record included. -/
lemma petRead_roundtrip (g : Gen) (p : PetRead) (h : p.wf = true) :
    PetRead.validate g p.serialize = some p := by
  obtain ⟨na, sp, br, bd, co, i, ow, ca, ua⟩ := p
  cases ow with
  | none =>
    simp only [PetRead.wf, optWf, Bool.and_eq_true] at h
    cases br <;> cases bd <;> cases co <;>
      simp_all [PetRead.validate, PetRead.serialize, vReqStr, vOptStr,
        vOptDate, vGenUuid, vGenDatetime, vOptOwner, lookupJ, jOptStr]
  | some o =>
    obtain ⟨fn, ln, em, ph, gi, ad, oi, oca, oua⟩ := o
    simp only [PetRead.wf, OwnerRead.wf, optWf, Bool.and_eq_true] at h
    cases br <;> cases bd <;> cases co <;> cases ph <;> cases gi <;>
      simp_all [PetRead.validate, PetRead.serialize, OwnerRead.validate,
        OwnerRead.serialize, vReqStr, vReqEmail, vOptStr, vOptDate,
        vGenUuid, vGenDatetime, vOptOwner, vAddrList, lookupJ, jOptStr,
        validateList_serialize]

/-! ## Claim theorems -/

/-- C1: for every valid Create payload (Owner or Pet), the Read record the
create operation produces carries the server-generated id — serialized as a
string, never null — and its `created_at` equals its `updated_at`. -/
theorem create_read_id_and_timestamps :
    ∀ (g : Gen) (p : OwnerCreate) (q : PetCreate),
      (createOwner g p).id = g.freshUuid ∧
      (createOwner g p).created_at = (createOwner g p).updated_at ∧
      jGet (OwnerRead.serialize (createOwner g p)) "id" =
        some (Json.str g.freshUuid) ∧
      jGet (OwnerRead.serialize (createOwner g p)) "id" ≠ some Json.null ∧
      (createPet g q).id = g.freshUuid ∧
      (createPet g q).created_at = (createPet g q).updated_at ∧
      jGet (PetRead.serialize (createPet g q)) "id" =
        some (Json.str g.freshUuid) ∧
      jGet (PetRead.serialize (createPet g q)) "id" ≠ some Json.null := by
  intro g p q
  refine ⟨rfl, rfl, by rfl, ?_, rfl, rfl, by rfl, ?_⟩ <;>
    exact fun hc => Json.noConfusion (Option.some.inj hc)

/-- C3: a present `addresses` field in an Owner update replaces the stored
list in full: updating with list `a` and then with list `b` leaves exactly
`b`, whatever was stored before. -/
theorem owner_addresses_full_replacement :
    ∀ (r : OwnerRead) (a b : List AddressBase) (t1 t2 : String),
      (applyOwnerUpdate
        (applyOwnerUpdate r ⟨none, none, none, none, none, some (some a)⟩ t1)
        ⟨none, none, none, none, none, some (some b)⟩ t2).addresses = b := by
  intro r a b t1 t2
  rfl

/-- C7 counterexample: the claim says every Read record constructed without
explicit id/timestamps receives the same id, captured once at process
startup.  The source declares these fields with `default_factory`
(`owner.py` lines 148-162), so the factory fires per instantiation: two
constructions under different instantiation environments receive different
ids. -/
theorem read_defaults_not_startup_constant_cex :
    (OwnerRead.ofBase
        ⟨"11111111-1111-4111-8111-111111111111", "2025-01-15T10:20:30Z"⟩
        ownerBaseExample).id ≠
      (OwnerRead.ofBase
        ⟨"22222222-2222-4222-8222-222222222222", "2025-01-16T12:00:00Z"⟩
        ownerBaseExample).id := by
  decide

/-- C7 (amended): the `default_factory` defaults for `id`, `created_at` and
`updated_at` are evaluated once per instance at construction time, so a Read
record constructed without those fields receives the fresh UUID and the
timestamp of its own instantiation instant, not values captured at process
startup. -/
theorem read_defaults_per_instance :
    ∀ (g : Gen) (b : OwnerBase) (pb : PetBase),
      (OwnerRead.ofBase g b).id = g.freshUuid ∧
      (OwnerRead.ofBase g b).created_at = g.now ∧
      (OwnerRead.ofBase g b).updated_at = g.now ∧
      (PetRead.ofBase g pb).id = g.freshUuid ∧
      (PetRead.ofBase g pb).created_at = g.now ∧
      (PetRead.ofBase g pb).updated_at = g.now :=
  fun _ _ _ => ⟨rfl, rfl, rfl, rfl, rfl, rfl⟩

/-- C9: required text fields carry no non-emptiness constraint: Owner Create
with empty `first_name` and `last_name`, and Pet Create with empty `name`
and `species`, validate successfully. -/
theorem empty_strings_validate :
    OwnerCreate.validate (Json.obj
        [("first_name", Json.str ""), ("last_name", Json.str ""),
         ("email", Json.str "ada@example.com")]) =
      some ⟨"", "", "ada@example.com", none, none, []⟩ ∧
    PetCreate.validate (Json.obj
        [("name", Json.str ""), ("species", Json.str ""),
         ("owner_id", Json.str "99999999-9999-4999-8999-999999999999")]) =
      some ⟨"", "", none, none, none,
        "99999999-9999-4999-8999-999999999999"⟩ := by
  exact ⟨by decide, by decide⟩

/-- C10: the empty update payload validates for both `OwnerUpdate` and
`PetUpdate`, with every field unset. -/
theorem empty_update_payload_validates :
    OwnerUpdate.validate (Json.obj []) =
      some ⟨none, none, none, none, none, none⟩ ∧
    PetUpdate.validate (Json.obj []) = some ⟨none, none, none, none, none⟩ :=
  ⟨rfl, rfl⟩

/-- C4: Owner Create validation fails exactly when `first_name`,
`last_name` or `email` is missing, a present field has the wrong type, or
the email is not syntactically valid; and a present malformed email is also
rejected by Owner Update validation. -/
theorem owner_validation_fails_iff :
    ∀ fs : List (String × Json),
      (OwnerCreate.validate (Json.obj fs) = none ↔
        ownerValidationFails fs = true) ∧
      (∀ s, lookupJ fs "email" = some (Json.str s) →
        isValidEmail s = false → OwnerUpdate.validate (Json.obj fs) = none) := by
  intro fs
  refine ⟨ownerValidate_none_iff fs, ?_⟩
  intro s h1 h2
  have he : vUpdEmail fs "email" = none := by
    unfold vUpdEmail
    rw [h1]
    simp [h2]
  unfold OwnerUpdate.validate
  cases c1 : vUpdStr fs "first_name" <;>
  cases c2 : vUpdStr fs "last_name" <;>
  cases c4 : vUpdStr fs "phone" <;>
  cases c5 : vUpdStr fs "government_id" <;>
  cases c6 : vUpdAddrList fs "addresses" <;>
  simp only [c1, c2, c4, c5, c6, he]

/-- C4 witness: the payload with email "not-an-email" is rejected by both
Owner Create and Owner Update validation. -/
theorem owner_validation_fails_iff_witness :
    OwnerCreate.validate
        (Json.obj [("email", Json.str "not-an-email")]) = none ∧
    OwnerUpdate.validate
        (Json.obj [("email", Json.str "not-an-email")]) = none :=
  ⟨(owner_validation_fails_iff [("email", Json.str "not-an-email")]).1.mpr
      (by decide),
   (owner_validation_fails_iff [("email", Json.str "not-an-email")]).2
      "not-an-email" rfl (by decide)⟩

/-- C5: a Pet Create payload missing `name`, `species` or `owner_id` fails
validation, and no record is produced (the validator yields `none`, never a
partially-populated value). -/
theorem petcreate_missing_required_rejected :
    ∀ fs : List (String × Json),
      ((lookupJ fs "name").isNone = true ∨
       (lookupJ fs "species").isNone = true ∨
       (lookupJ fs "owner_id").isNone = true) →
      PetCreate.validate (Json.obj fs) = none := by
  intro fs h
  refine (petValidate_none_iff fs).mpr ?_
  unfold petValidationFails petMissingRequired
  simp only [Bool.or_eq_true]
  tauto

/-- C5 witness: a Pet Create payload with valid `name` and `species` but no
`owner_id` is rejected. -/
theorem petcreate_missing_required_rejected_witness :
    PetCreate.validate
      (Json.obj [("name", Json.str "Buddy"), ("species", Json.str "Dog")]) =
      none :=
  petcreate_missing_required_rejected
    [("name", Json.str "Buddy"), ("species", Json.str "Dog")]
    (Or.inr (Or.inr rfl))

/-- C8: when any of the listed validation error conditions holds (missing
required field, wrong type, malformed email, malformed date), the payload is
rejected in full: validation yields `none`, and no validated value — in
particular none containing a subset of the payload's fields — is
produced. -/
theorem validation_error_full_rejection :
    ∀ fs : List (String × Json),
      (ownerValidationFails fs = true →
        OwnerCreate.validate (Json.obj fs) = none ∧
        ∀ b : OwnerBase, OwnerCreate.validate (Json.obj fs) ≠ some b) ∧
      (petValidationFails fs = true →
        PetCreate.validate (Json.obj fs) = none ∧
        ∀ q : PetCreate, PetCreate.validate (Json.obj fs) ≠ some q) := by
  intro fs
  constructor
  · intro h
    have e : OwnerCreate.validate (Json.obj fs) = none :=
      (ownerValidate_none_iff fs).mpr h
    exact ⟨e, fun b hb => by rw [e] at hb; exact Option.noConfusion hb⟩
  · intro h
    have e := (petValidate_none_iff fs).mpr h
    exact ⟨e, fun q hq => by rw [e] at hq; exact Option.noConfusion hq⟩

/-- C8 witness: an Owner payload whose `first_name` and `last_name` are
valid but whose `email` is missing is rejected whole, and a Pet payload
valid except for a malformed `birth_date` is rejected whole. -/
theorem validation_error_full_rejection_witness :
    OwnerCreate.validate
        (Json.obj [("first_name", Json.str "Ada"),
                   ("last_name", Json.str "Lovelace")]) = none ∧
    PetCreate.validate
        (Json.obj [("name", Json.str "Buddy"), ("species", Json.str "Dog"),
                   ("owner_id",
                    Json.str "99999999-9999-4999-8999-999999999999"),
                   ("birth_date", Json.str "not-a-date")]) = none :=
  ⟨((validation_error_full_rejection
      [("first_name", Json.str "Ada"),
       ("last_name", Json.str "Lovelace")]).1 (by decide)).1,
   ((validation_error_full_rejection
      [("name", Json.str "Buddy"), ("species", Json.str "Dog"),
       ("owner_id", Json.str "99999999-9999-4999-8999-999999999999"),
       ("birth_date", Json.str "not-a-date")]).2 (by decide)).1⟩

/-- C2: applying an Update to a Read record overwrites exactly the fields
that are structurally present in the payload and keeps every structurally
omitted field unchanged — for every field of `OwnerUpdate` and `PetUpdate`;
the non-payload fields `id` and `created_at` are never touched. -/
theorem update_merge_overwrite_and_frame :
    ∀ (r : OwnerRead) (u : OwnerUpdate) (p : PetRead) (v : PetUpdate)
      (t t2 : String),
      (∀ s, u.first_name = some (some s) →
        (applyOwnerUpdate r u t).first_name = s) ∧
      (u.first_name = none →
        (applyOwnerUpdate r u t).first_name = r.first_name) ∧
      (∀ s, u.last_name = some (some s) →
        (applyOwnerUpdate r u t).last_name = s) ∧
      (u.last_name = none →
        (applyOwnerUpdate r u t).last_name = r.last_name) ∧
      (∀ s, u.email = some (some s) →
        (applyOwnerUpdate r u t).email = s) ∧
      (u.email = none → (applyOwnerUpdate r u t).email = r.email) ∧
      (∀ w, u.phone = some w → (applyOwnerUpdate r u t).phone = w) ∧
      (u.phone = none → (applyOwnerUpdate r u t).phone = r.phone) ∧
      (∀ w, u.government_id = some w →
        (applyOwnerUpdate r u t).government_id = w) ∧
      (u.government_id = none →
        (applyOwnerUpdate r u t).government_id = r.government_id) ∧
      (∀ xs, u.addresses = some (some xs) →
        (applyOwnerUpdate r u t).addresses = xs) ∧
      (u.addresses = none →
        (applyOwnerUpdate r u t).addresses = r.addresses) ∧
      ((applyOwnerUpdate r u t).id = r.id ∧
       (applyOwnerUpdate r u t).created_at = r.created_at) ∧
      (∀ s, v.name = some (some s) → (applyPetUpdate p v t2).name = s) ∧
      (v.name = none → (applyPetUpdate p v t2).name = p.name) ∧
      (∀ s, v.species = some (some s) →
        (applyPetUpdate p v t2).species = s) ∧
      (v.species = none → (applyPetUpdate p v t2).species = p.species) ∧
      (∀ w, v.breed = some w → (applyPetUpdate p v t2).breed = w) ∧
      (v.breed = none → (applyPetUpdate p v t2).breed = p.breed) ∧
      (∀ w, v.birth_date = some w →
        (applyPetUpdate p v t2).birth_date = w) ∧
      (v.birth_date = none →
        (applyPetUpdate p v t2).birth_date = p.birth_date) ∧
      (∀ w, v.color = some w → (applyPetUpdate p v t2).color = w) ∧
      (v.color = none → (applyPetUpdate p v t2).color = p.color) ∧
      ((applyPetUpdate p v t2).id = p.id ∧
       (applyPetUpdate p v t2).owner = p.owner ∧
       (applyPetUpdate p v t2).created_at = p.created_at) := by
  intro r u p v t t2
  refine ⟨fun s h => ?_, fun h => ?_, fun s h => ?_, fun h => ?_,
    fun s h => ?_, fun h => ?_, fun w h => ?_, fun h => ?_, fun w h => ?_,
    fun h => ?_, fun xs h => ?_, fun h => ?_, ⟨rfl, rfl⟩, fun s h => ?_,
    fun h => ?_, fun s h => ?_, fun h => ?_, fun w h => ?_, fun h => ?_,
    fun w h => ?_, fun h => ?_, fun w h => ?_, fun h => ?_,
    ⟨rfl, rfl, rfl⟩⟩ <;>
  simp [applyOwnerUpdate, applyPetUpdate, h]

/-- C2 witness: on concrete records and payloads, the present fields
(`first_name`, a null `phone`, the empty `addresses` list; `name`) are
overwritten and the omitted ones (`last_name`; `species`) are unchanged. -/
theorem update_merge_overwrite_and_frame_witness :
    (applyOwnerUpdate ownerReadExample ownerUpdateExample
      "2025-01-16T12:00:00Z").first_name = "Ann" ∧
    (applyOwnerUpdate ownerReadExample ownerUpdateExample
      "2025-01-16T12:00:00Z").last_name = ownerReadExample.last_name ∧
    (applyOwnerUpdate ownerReadExample ownerUpdateExample
      "2025-01-16T12:00:00Z").phone = none ∧
    (applyOwnerUpdate ownerReadExample ownerUpdateExample
      "2025-01-16T12:00:00Z").addresses = [] ∧
    (applyPetUpdate petReadExample petUpdateExample
      "2025-01-16T12:00:00Z").name = "Max" ∧
    (applyPetUpdate petReadExample petUpdateExample
      "2025-01-16T12:00:00Z").species = petReadExample.species := by
  obtain ⟨h1, h2, h3, h4, h5, h6, h7, h8, h9, h10, h11, h12, h13, h14,
    h15, h16, h17, h18, h19, h20, h21, h22, h23, h24⟩ :=
    update_merge_overwrite_and_frame ownerReadExample ownerUpdateExample
      petReadExample petUpdateExample "2025-01-16T12:00:00Z"
      "2025-01-16T12:00:00Z"
  exact ⟨h1 "Ann" rfl, h4 rfl, h7 none rfl, h11 [] rfl, h14 "Max" rfl,
    h17 rfl⟩

/-- C6: serializing a Read record (Owner or Pet) and validating the
serialization back yields exactly the original record, field for field. -/
theorem read_serialize_parse_roundtrip :
    ∀ (g : Gen) (r : OwnerRead) (p : PetRead),
      r.wf = true → p.wf = true →
      OwnerRead.validate g r.serialize = some r ∧
      PetRead.validate g p.serialize = some p :=
  fun g r p hr hp => ⟨ownerRead_roundtrip g r hr, petRead_roundtrip g p hp⟩

/-- C6 witness: the round trip on a concrete well-formed Owner record and a
concrete Pet record embedding it. -/
theorem read_serialize_parse_roundtrip_witness :
    OwnerRead.validate genExample ownerReadExample.serialize =
      some ownerReadExample ∧
    PetRead.validate genExample petReadExample.serialize =
      some petReadExample :=
  read_serialize_parse_roundtrip genExample ownerReadExample petReadExample
    (by decide) (by decide)
